import Mathlib

/-!
Verification of the applicant scoring and deduplication engine of
`src/app.py` (All Saints applicant prioritization tool).

The Python source is shallowly embedded: every cell of the uploaded
spreadsheet is a `RawValue` (the file is read with `dtype=str`, so cells
are strings, missing cells are float NaN, and `Series.get` of an absent
column yields Python `None`; an `int` constructor is kept so that the
totality claims also cover numeric values).  Python string operations
(`strip`, `lower`, substring `in`, `split`, `int(...)`) are modelled on
`List Char` over the ASCII range used by the keyword tables.  The two
external parsers the source calls — `pd.to_datetime` used inside
`normalize_age` / the dedup block — are parameters of type
`String → Option Int` (`none` models a parse failure / `NaT`), and
`date.today().year` is an explicit `currentYear` parameter.
-/

/-- A raw spreadsheet cell as seen by the Python code: `none` models
Python `None` (absent column), `nan` models a float NaN missing cell
(note: NaN is *truthy* in Python), `str` a string cell, `int` a numeric
value (for totality claims; `dtype=str` uploads only produce `str`/`nan`). -/
inductive RawValue where
  | none : RawValue
  | nan : RawValue
  | str (s : String) : RawValue
  | int (n : Int) : RawValue
deriving DecidableEq, Repr

/-- Python truthiness of a raw cell: `None` and `""` are falsy,
NaN and every non-empty string are truthy, an int is truthy iff nonzero. -/
def pyTruthy : RawValue → Bool
  | RawValue.none => false
  | RawValue.nan => true
  | RawValue.str s => !(s == "")
  | RawValue.int n => !(n == 0)

/-- Python `a or b` on raw values (returns `a` when truthy, else `b`). -/
def pyOr (a b : RawValue) : RawValue := if pyTruthy a then a else b

/-- `leadsWith n h` : the char list `n` is an initial segment of `h`
(Python `h.startswith(n)`). -/
def leadsWith : List Char → List Char → Bool
  | [], _ => true
  | _ :: _, [] => false
  | a :: as, b :: bs => (a == b) && leadsWith as bs

/-- `subAt n h` : the char list `n` occurs contiguously inside `h`
(Python substring containment `n in h`). -/
def subAt (n : List Char) : List Char → Bool
  | [] => leadsWith n []
  | c :: cs => leadsWith n (c :: cs) || subAt n cs

/-- Python `needle in hay` on strings. -/
def strIn (needle hay : String) : Bool := subAt needle.toList hay.toList

/-- ASCII lower-casing of one character (Python `str.lower` on the
ASCII inputs handled by the keyword tables). -/
def lowerChar (c : Char) : Char :=
  if 'A' ≤ c && c ≤ 'Z' then Char.ofNat (c.toNat + 32) else c

/-- Python `str.lower()`. -/
def strLower (s : String) : String := String.mk (s.toList.map lowerChar)

/-- Drop leading and trailing whitespace from a char list. -/
def trimChars (l : List Char) : List Char :=
  ((l.dropWhile Char.isWhitespace).reverse.dropWhile Char.isWhitespace).reverse

/-- Python `str.strip()`. -/
def strTrim (s : String) : String := String.mk (trimChars s.toList)

/-- Python `str(x)` on a raw cell (as used by `normalize_age`). -/
def pyStr : RawValue → String
  | RawValue.none => "None"
  | RawValue.nan => "nan"
  | RawValue.str s => s
  | RawValue.int n => toString n

/-- All characters are ASCII digits and the list is non-empty
(Python `str.isdigit()` on ASCII text). -/
def allDigits : List Char → Bool
  | [] => false
  | [c] => c.isDigit
  | c :: cs => c.isDigit && allDigits cs

/-- Digit list to number, most significant first. -/
def digitsVal : List Char → Nat
  | [] => 0
  | c :: cs => (c.toNat - 48) * 10 ^ cs.length + digitsVal cs

/-- Python `int(s)`: strip whitespace, optional sign, all-digit body;
`none` models the `ValueError` that `normalize_age` catches. -/
def pyInt (s : String) : Option Int :=
  match trimChars s.toList with
  | '+' :: rest => if allDigits rest then some (Int.ofNat (digitsVal rest)) else Option.none
  | '-' :: rest => if allDigits rest then some (-(Int.ofNat (digitsVal rest))) else Option.none
  | cs => if allDigits cs then some (Int.ofNat (digitsVal cs)) else Option.none

/-- Python `str.split()` (split on whitespace runs, no empty tokens). -/
def splitWS : List Char → List (List Char)
  | [] => []
  | c :: cs =>
    if c.isWhitespace then splitWS cs
    else
      match splitWS cs with
      | [] => [[c]]
      | t :: ts =>
        match cs with
        | [] => [[c]]
        | d :: _ => if d.isWhitespace then [c] :: t :: ts else (c :: t) :: ts

-- ========== CONFIG (module-level constants of src/app.py) ==========

def COLS_age : String := "Date of Birth"
def COLS_degree : String := "Degree"
def COLS_country : String := "Country of Citizenship"
def COLS_personal_statement : String := "Personal Statement"
def COLS_self_sponsorship : String := "Self Sponsorship"
def COLS_family_support : String := "Parent/Family Support"
def COLS_private_loan : String := "Private Loan"
def COLS_third_party_scholarship : String := "Scholarship From a Third Party"
def COLS_other_sources : String := "Other Sources"

def SELF_SPONSOR_WEIGHT : Int := 18
def FAMILY_SUPPORT_WEIGHT : Int := 28
def PRIVATE_LOAN_WEIGHT : Int := 24
def EXTERNAL_SCHOLAR_CONFIRMED_WEIGHT : Int := 14
def EXTERNAL_SCHOLAR_PLANNED_WEIGHT : Int := 8
def ASU_SCHOLAR_PENALTY : Int := -15

def EUROPE_COUNTRIES : List String :=
  ["united kingdom", "uk", "england", "ireland", "germany", "france",
   "italy", "spain", "portugal", "netherlands", "belgium", "sweden",
   "norway", "denmark", "finland", "switzerland", "austria", "poland",
   "greece", "czech", "hungary", "romania", "iceland"]

def CARIBBEAN_COUNTRIES : List String :=
  ["jamaica", "haiti", "dominican republic", "dr",
   "trinidad", "trinidad and tobago", "tobago",
   "barbados", "bahamas", "grenada", "st lucia", "saint lucia",
   "st vincent", "saint vincent", "st vincent and the grenadines",
   "antigua", "antigua and barbuda",
   "st kitts", "saint kitts", "st kitts and nevis", "saint kitts and nevis",
   "dominica",
   "cuba", "puerto rico",
   "guadeloupe", "martinique", "cayman", "cayman islands",
   "turks", "turks and caicos", "aruba", "curacao", "curaçao",
   "bonaire", "bermuda", "virgin islands", "u.s. virgin islands", "british virgin islands",
   "anguilla", "montserrat"]

def SCHOLARSHIP_NEED_KEYWORDS : List String :=
  ["scholarship", "financial aid", "bursary",
   "can't afford", "cannot afford",
   "need support", "help with fees", "help pay", "help me pay",
   "fund my studies", "sponsor me"]

def NEGATIVE_WORDS : List String :=
  ["", "none", "no", "no source", "nothing", "n/a", "na", "nil"]

/-- Membership in the `NEGATIVE_WORDS` set. -/
def negWord (t : String) : Bool := NEGATIVE_WORDS.contains t

-- ========== FIELD NORMALIZER (src/app.py lines 80-311) ==========

/-- `clean_text` of src/app.py: non-strings become `""`, strings are
stripped then lower-cased. -/
def clean_text : RawValue → String
  | RawValue.str s => strLower (strTrim s)
  | _ => ""

/-- `normalize_age` of src/app.py.  `currentYear` models
`date.today().year`; `pdate` models `pd.to_datetime(s, errors="raise",
dayfirst=True).year` (`none` = the exception the source catches).
Step 1 tries `int(s)` (birth year before plain age), step 2 a permissive
date parse, step 3 scans whitespace tokens for a 4-digit year. -/
def normalize_age (currentYear : Int) (pdate : String → Option Int) (raw : RawValue) : Option Int :=
  match raw with
  | RawValue.none => Option.none
  | RawValue.nan => Option.none
  | _ =>
    let s := strTrim (pyStr raw)
    let step3 : Option Int :=
      (splitWS s.toList).findSome? fun tok =>
        if allDigits tok && tok.length == 4 then
          let y : Int := Int.ofNat (digitsVal tok)
          if 1900 ≤ y ∧ y ≤ currentYear then some (currentYear - y) else Option.none
        else Option.none
    let step2 : Option Int :=
      match pdate s with
      | some year =>
        if 1900 ≤ year ∧ year ≤ currentYear then some (currentYear - year) else step3
      | Option.none => step3
    match pyInt (pyStr raw) with
    | some x =>
      if 1900 ≤ x ∧ x ≤ currentYear then some (currentYear - x)
      else if 10 ≤ x ∧ x ≤ 80 then some x
      else step2
    | Option.none => step2

/-- `has_degree_text` of src/app.py: any non-empty degree text that is
not a negative word counts as having a degree. -/
def has_degree_text (value : RawValue) : Bool :=
  let t := clean_text value
  if negWord t then false else !(t == "")

def family_keywords : List String :=
  ["parent", "parents", "family", "uncle", "aunt", "relative",
   "guardian", "grand", "spouse", "husband", "wife",
   "brother", "sister", "cousin", "father", "mother"]

/-- `has_family_support_text` of src/app.py. -/
def has_family_support_text (value : RawValue) : Bool :=
  let t := clean_text value
  if negWord t then false
  else if family_keywords.any (fun k => strIn k t) then true
  else if strIn "yes" t then true
  else false

def self_keywords : List String :=
  ["self", "own savings", "my savings", "saving",
   "working", "work and study", "work and schooling",
   "salary", "income", "job", "yes"]

/-- `has_self_support_text` of src/app.py. -/
def has_self_support_text (value : RawValue) : Bool :=
  let t := clean_text value
  if negWord t then false
  else self_keywords.any (fun k => strIn k t)

def loan_keywords : List String :=
  ["loan", "bank", "credit", "lender", "student loan", "study loan", "yes"]

/-- `has_private_loan_text` of src/app.py. -/
def has_private_loan_text (value : RawValue) : Bool :=
  let t := clean_text value
  if negWord t then false
  else loan_keywords.any (fun k => strIn k t)

/-- Result of `parse_scholarship_text` (the Python dict with keys
`external_confirmed`, `external_planned`, `asu_school`). -/
structure ScholFlags where
  external_confirmed : Bool
  external_planned : Bool
  asu_school : Bool
deriving DecidableEq, Repr

def schol_keywords : List String :=
  ["scholar", "bursary", "grant", "nsfas", "sassa", "sponsor", "sponsorship", "fund"]

def planned_words : List String :=
  ["plan", "planning", "apply", "applying", "seek", "seeking", "looking"]

/-- `parse_scholarship_text` of src/app.py: the keyword cascade that
classifies scholarship-related text. -/
def parse_scholarship_text (value : RawValue) : ScholFlags :=
  let t := clean_text value
  if negWord t then ⟨false, false, false⟩
  else if t == "yes" || t == "y" then ⟨false, true, false⟩
  else if !(schol_keywords.any (fun k => strIn k t)) then ⟨false, false, false⟩
  else if strIn "all saints" t || (strIn "school" t && strIn "scholar" t)
      || (strIn "university" t && strIn "scholar" t) then ⟨false, false, true⟩
  else if planned_words.any (fun w => strIn w t) then ⟨false, true, false⟩
  else ⟨true, false, false⟩

-- ========== POINT MODEL (src/app.py lines 229-311) ==========

/-- `age_degree_points` of src/app.py: maturity points plus a reason
that is emitted on every branch (including the zero-point ones). -/
def age_degree_points (age : Option Int) (has_degree : Bool) : Int × List String :=
  match age with
  | Option.none => (0, ["Age unknown (no points applied)"])
  | some a =>
    if has_degree ∧ 24 ≤ a then (17, ["Has degree and age ≥ 24"])
    else if has_degree ∧ 21 ≤ a ∧ a ≤ 23 then (12, ["Has degree and age 21–23"])
    else if (¬ (has_degree = true)) ∧ 24 ≤ a then
      (7, ["Age ≥ 24 without degree (may be financially independent)"])
    else if has_degree then
      (0, ["Has degree but age " ++ toString a ++ " (<21) — no maturity bonus"])
    else (0, ["No degree and age " ++ toString a ++ " — no maturity bonus"])

/-- `country_priority_flag` of src/app.py: region flag, region points and
the single region reason (Canada, then USA, then Europe, then Caribbean;
non-strings yield the all-neutral result). -/
def country_priority_flag (country_raw : RawValue) : Bool × Int × List String :=
  match country_raw with
  | RawValue.str s =>
    let c := strLower (strTrim s)
    if strIn "canada" c then (true, 40, ["From Canada — top priority region"])
    else if strIn "united states" c || strIn "usa" c || strIn "u.s.a" c
        || strIn "america" c then (true, 40, ["From USA — top priority region"])
    else if EUROPE_COUNTRIES.any (fun e => strIn e c) then
      (true, 40, ["From Europe — top priority region"])
    else if CARIBBEAN_COUNTRIES.any (fun k => strIn k c) then
      (true, 40, ["From Caribbean — top priority region"])
    else (false, 0, [])
  | _ => (false, 0, [])

/-- `personal_statement_requests_school_scholarship` of src/app.py
(note: the source lower-cases but does not strip here). -/
def personal_statement_requests_school_scholarship (text : RawValue) : Bool :=
  match text with
  | RawValue.str s => SCHOLARSHIP_NEED_KEYWORDS.any (fun k => strIn k (strLower s))
  | _ => false

-- ========== SCORE AGGREGATOR (src/app.py lines 314-427) ==========

/-- A spreadsheet row as `score_row` sees it: `row.get(col)` is total on
a pandas Series and returns Python `None` for an absent column, which the
function type makes implicit (`RawValue.none` for absent keys). -/
def Row : Type := String → RawValue

/-- The degree fallback chain of `score_row`
(`row.get(COLS["degree"]) or row.get("Degree (2)") or row.get("Degree (3)")`,
Python `or` short-circuiting on truthiness). -/
def degree_text (row : Row) : RawValue :=
  pyOr (row COLS_degree) (pyOr (row "Degree (2)") (row "Degree (3)"))

/-- The pre-clamp sum of all point-model contributions of `score_row`
(the value of the Python variable `score` just before
`score = max(0, min(100, score))`), laid out in the source's
accumulation order. -/
def raw_score (currentYear : Int) (pdate : String → Option Int) (row : Row) : Int :=
  let has_self := has_self_support_text (row COLS_self_sponsorship)
  let has_family := has_family_support_text (row COLS_family_support)
    || has_family_support_text (row COLS_other_sources)
  let has_loan := has_private_loan_text (row COLS_private_loan)
  let third_party_info := parse_scholarship_text (row COLS_third_party_scholarship)
  let other_sources_info := parse_scholarship_text (row COLS_other_sources)
  let external_confirmed := third_party_info.external_confirmed
    || other_sources_info.external_confirmed
  let external_planned := third_party_info.external_planned
    || other_sources_info.external_planned
  let asu_school_scholar := third_party_info.asu_school || other_sources_info.asu_school
  let has_deg := has_degree_text (degree_text row)
  let age_val := normalize_age currentYear pdate (row COLS_age)
  let region := country_priority_flag (row COLS_country)
  (if has_self then SELF_SPONSOR_WEIGHT else 0)
    + (if has_family then FAMILY_SUPPORT_WEIGHT else 0)
    + (if has_loan then PRIVATE_LOAN_WEIGHT else 0)
    + (if external_confirmed then EXTERNAL_SCHOLAR_CONFIRMED_WEIGHT else 0)
    + (if external_planned then EXTERNAL_SCHOLAR_PLANNED_WEIGHT else 0)
    + (if ASU_SCHOLAR_PENALTY ≠ 0 ∧ asu_school_scholar = true then ASU_SCHOLAR_PENALTY else 0)
    + (age_degree_points age_val has_deg).1
    + region.2.1
    + (if personal_statement_requests_school_scholarship (row COLS_personal_statement)
        then -10 else 0)

/-- The output record of `score_row` (the returned `pd.Series`); the
source renders `reasons` joined with `"; "`, kept here as the list. -/
structure ScoredRow where
  computedAge : Option Int
  score : Int
  category : String
  reasons : List String
  hasFamilySupport : Bool
  hasSelfSupport : Bool
  hasPrivateLoan : Bool
  hasExternalScholarshipConfirmed : Bool
  hasExternalScholarshipPlanned : Bool
  hasASUScholarDependency : Bool
deriving DecidableEq, Repr

/-- `score_row` of src/app.py: normalizes every configured field, sums
the point model (via `raw_score`, whose conditions are recomputed here
purely — the heuristics are pure functions, so this matches the source's
single evaluation), clamps to `[0, 100]`, and picks the category. -/
def score_row (currentYear : Int) (pdate : String → Option Int) (row : Row) : ScoredRow :=
  let has_self := has_self_support_text (row COLS_self_sponsorship)
  let has_family := has_family_support_text (row COLS_family_support)
    || has_family_support_text (row COLS_other_sources)
  let has_loan := has_private_loan_text (row COLS_private_loan)
  let third_party_info := parse_scholarship_text (row COLS_third_party_scholarship)
  let other_sources_info := parse_scholarship_text (row COLS_other_sources)
  let external_confirmed := third_party_info.external_confirmed
    || other_sources_info.external_confirmed
  let external_planned := third_party_info.external_planned
    || other_sources_info.external_planned
  let asu_school_scholar := third_party_info.asu_school || other_sources_info.asu_school
  let has_deg := has_degree_text (degree_text row)
  let age_val := normalize_age currentYear pdate (row COLS_age)
  let region := country_priority_flag (row COLS_country)
  let is_region_top := region.1
  let reasons :=
    (if has_self then ["Self funding from own work/savings"] else [])
    ++ (if has_family then ["Parent/Family financial support identified"] else [])
    ++ (if has_loan then ["Private / bank loan arranged or intended"] else [])
    ++ (if external_confirmed then ["Confirmed scholarship/bursary from external source"] else [])
    ++ (if external_planned ∧ EXTERNAL_SCHOLAR_PLANNED_WEIGHT > 0
        then ["Plans to apply for external scholarship/bursary"] else [])
    ++ (if ASU_SCHOLAR_PENALTY ≠ 0 ∧ asu_school_scholar = true
        then ["Depends on scholarship from ASU/school"] else [])
    ++ (age_degree_points age_val has_deg).2
    ++ region.2.2
    ++ (if personal_statement_requests_school_scholarship (row COLS_personal_statement)
        then ["Personal statement suggests need for ASU scholarship"] else [])
  let score := max 0 (min 100 (raw_score currentYear pdate row))
  let category :=
    if is_region_top then
      if score ≥ 70 then "Top priority (Canada / US / Europe / Caribbean)"
      else "High potential (Canada / US / Europe / Caribbean – funding weaker)"
    else
      if score ≥ 70 then "Top priority (Financially strong)"
      else if 50 ≤ score ∧ score < 70 then "High potential"
      else if 35 ≤ score ∧ score < 50 then "Medium potential"
      else "Low / scholarship-dependent"
  { computedAge := age_val
    score := score
    category := category
    reasons := reasons
    hasFamilySupport := has_family
    hasSelfSupport := has_self
    hasPrivateLoan := has_loan
    hasExternalScholarshipConfirmed := external_confirmed
    hasExternalScholarshipPlanned := external_planned
    hasASUScholarDependency := asu_school_scholar }

/-- The six category labels of §3 of the spec, as the code spells them. -/
def categoryLabels : List String :=
  ["Top priority (Canada / US / Europe / Caribbean)",
   "High potential (Canada / US / Europe / Caribbean – funding weaker)",
   "Top priority (Financially strong)",
   "High potential",
   "Medium potential",
   "Low / scholarship-dependent"]

/-- The category decision exactly as the spec's §4.3 words it, as a
function of the final clamped score and the region flag. -/
def spec_category (score : Int) (isTopPriorityRegion : Bool) : String :=
  if isTopPriorityRegion then
    if score ≥ 70 then "Top priority (Canada / US / Europe / Caribbean)"
    else "High potential (Canada / US / Europe / Caribbean – funding weaker)"
  else
    if score ≥ 70 then "Top priority (Financially strong)"
    else if 50 ≤ score ∧ score < 70 then "High potential"
    else if 35 ≤ score ∧ score < 50 then "Medium potential"
    else "Low / scholarship-dependent"

/-- A concrete over-100 record for C2: self (+18), family (+28),
loan (+24), confirmed external scholarship (+14), Canada (+40)
give a raw sum of 124, clamped to exactly 100. -/
def c2row : Row := fun k =>
  if k == COLS_self_sponsorship then RawValue.str "self"
  else if k == COLS_family_support then RawValue.str "parents"
  else if k == COLS_private_loan then RawValue.str "bank loan"
  else if k == COLS_third_party_scholarship then RawValue.str "confirmed scholarship"
  else if k == COLS_country then RawValue.str "Canada"
  else RawValue.none

/-- The scholarship-text classifier exactly as C3 words it: negative
words, then bare yes/y, then the domain-keyword gate, then institution
dependency (institution name, or school/university co-occurring with
scholar), then planning words, then default-confirmed. -/
def claimed_classify (value : RawValue) : ScholFlags :=
  let t := clean_text value
  if negWord t then ⟨false, false, false⟩
  else if t == "yes" || t == "y" then ⟨false, true, false⟩
  else if !(schol_keywords.any (fun k => strIn k t)) then ⟨false, false, false⟩
  else if strIn "all saints" t
      || ((strIn "school" t || strIn "university" t) && strIn "scholar" t) then
    ⟨false, false, true⟩
  else if planned_words.any (fun w => strIn w t) then ⟨false, true, false⟩
  else ⟨true, false, false⟩

/-- Number of flags set by one classifier call. -/
def flagCount (f : ScholFlags) : Nat :=
  (if f.external_confirmed then 1 else 0)
    + (if f.external_planned then 1 else 0)
    + (if f.asu_school then 1 else 0)

/-- A record with Degree = "none" and Degree (2) = "BSc" is scored as
having no degree: the fallback never reaches the BSc alias. -/
def c10row : Row := fun k =>
  if k == "Degree" then RawValue.str "none"
  else if k == "Degree (2)" then RawValue.str "BSc"
  else RawValue.none

-- ========== DEDUPLICATOR (src/app.py lines 465-493) ==========

/-- One spreadsheet row as the dedup block uses it: the Email, Name,
Date of Birth and Date Created cells (the other columns play no role in
deduplication).  The claims all concern uploads in which these four
configured columns are present, so the model fixes them present. -/
structure DRow where
  email : RawValue
  name : RawValue
  dob : RawValue
  created : RawValue
deriving DecidableEq, Repr

/-- `pd.to_datetime(cell, errors="coerce")` on one cell: the external
string parser is the parameter `pts`; non-string cells give `NaT`
(`Option.none`). -/
def tsCell (pts : String → Option Int) : RawValue → Option Int
  | RawValue.str s => pts s
  | _ => Option.none

/-- The parsed submission timestamp of a row (`none` = `NaT`). -/
def rowTs (pts : String → Option Int) (r : DRow) : Option Int := tsCell pts r.created

/-- The key order of `sort_values(by=time_col)` (ascending, and pandas
puts `NaT` in the `na_position="last"` default position, after every
valid timestamp). -/
def tsLe : Option Int → Option Int → Bool
  | _, Option.none => true
  | Option.none, some _ => false
  | some a, some b => decide (a ≤ b)

/-- Row comparison used to sort by submission time. -/
def rowLe (pts : String → Option Int) (a b : DRow) : Prop :=
  tsLe (rowTs pts a) (rowTs pts b) = true

instance (pts : String → Option Int) : DecidableRel (rowLe pts) :=
  fun a b => instDecidableEqBool (tsLe (rowTs pts a) (rowTs pts b)) true

/-- `df.sort_values(by=time_col)`: ascending by parsed timestamp with
`NaT` last, modelled as a stable sort (pandas' default quicksort fixes
no order among equal keys; the stable sort realizes one admissible
outcome and is what the spec's "stable-sort" wording asks for). -/
def sortRows (pts : String → Option Int) (rs : List DRow) : List DRow :=
  List.insertionSort (rowLe pts) rs

/-- `df.drop_duplicates(subset=[...], keep="last")`: keep a row exactly
when no later row has an equal key (pandas treats equal NaN cells as
duplicates of one another, matching structural equality of `RawValue`);
kept rows stay in their original order. -/
def keepLast {α β : Type} [DecidableEq β] (key : α → β) : List α → List α
  | [] => []
  | x :: xs =>
    if xs.any (fun y => decide (key y = key x)) then keepLast key xs
    else x :: keepLast key xs

/-- The blank-email mask
`df[email_col].isna() | (df[email_col].str.strip() == "")`:
NaN/None cells are `isna`, string cells are blank after stripping
(a numeric cell is neither). -/
def no_email : RawValue → Bool
  | RawValue.none => true
  | RawValue.nan => true
  | RawValue.str s => strTrim s == ""
  | RawValue.int _ => false

/-- Steps 2-3 of the dedup block, applied after the optional sort:
primary `drop_duplicates` on the raw Email value over ALL rows, then the
fallback `drop_duplicates` on (Name, Date of Birth) over the blank-email
rows only, then `pd.concat([df_with_email, df_no_email])`. -/
def dedup_after_sort (rs : List DRow) : List DRow :=
  let rs2 := keepLast (fun r : DRow => r.email) rs
  let df_with_email := rs2.filter fun r => !(no_email r.email)
  let df_no_email :=
    keepLast (fun r : DRow => (r.name, r.dob)) (rs2.filter fun r => no_email r.email)
  df_with_email ++ df_no_email

/-- The whole dedup block of src/app.py: sort by submission time when
the `Date Created` column is present, then dedupe. -/
def dedup (pts : String → Option Int) (hasTimeCol : Bool) (rs : List DRow) : List DRow :=
  dedup_after_sort (if hasTimeCol then sortRows pts rs else rs)

-- ========== CONCRETE RECORDS FOR THE DEDUP CLAIMS ==========

/-- Timestamp parser for the C6 counterexample: only "2024-01-01"
parses; "not a date" is unparseable and coerces to NaT. -/
def c6pts : String → Option Int := fun s =>
  if s == "2024-01-01" then some 100 else Option.none

def c6valid : DRow :=
  ⟨RawValue.str "a@x.com", RawValue.str "A", RawValue.str "d", RawValue.str "2024-01-01"⟩

def c6invalid : DRow :=
  ⟨RawValue.str "a@x.com", RawValue.str "A", RawValue.str "d", RawValue.str "not a date"⟩

/-- Timestamp parser for the C7 failing input: t1 earlier than t2. -/
def c7pts : String → Option Int := fun s =>
  if s == "t1" then some 1 else if s == "t2" then some 2 else Option.none

def c7r1 : DRow :=
  ⟨RawValue.str "", RawValue.str "Alice", RawValue.str "2000-01-01", RawValue.str "t1"⟩

def c7r2 : DRow :=
  ⟨RawValue.str "", RawValue.str "Bob", RawValue.str "1999-05-05", RawValue.str "t2"⟩

/-- Timestamp parser for the C8 counterexample. -/
def c8pts : String → Option Int := fun s =>
  if s == "t1" then some 1 else if s == "t2" then some 2 else Option.none

def c8r1 : DRow :=
  ⟨RawValue.str "Applicant@X.com", RawValue.str "A", RawValue.str "d", RawValue.str "t1"⟩

def c8r2 : DRow :=
  ⟨RawValue.str " applicant@x.com", RawValue.str "A", RawValue.str "d", RawValue.str "t2"⟩

/-- The normalized (trimmed, case-insensitive) email key that the claim
and §3 of the spec describe — written from the spec's words, to compare
with the code's raw-value key. -/
def spec_email_key (e : RawValue) : String := strLower (strTrim (pyStr e))

-- ========== THEOREMS ==========

-- ========== HELPER LEMMAS (shared) ==========

/-- The score field of `score_row` is the clamped raw sum. -/
theorem score_row_score_eq (currentYear : Int) (pdate : String → Option Int) (row : Row) :
    (score_row currentYear pdate row).score
      = max 0 (min 100 (raw_score currentYear pdate row)) := rfl

/-- The category field of `score_row` is the spec's decision applied to
the clamped score and the region flag. -/
theorem score_row_category_eq (currentYear : Int) (pdate : String → Option Int) (row : Row) :
    (score_row currentYear pdate row).category
      = spec_category (score_row currentYear pdate row).score
          (country_priority_flag (row COLS_country)).1 := rfl

/-- `spec_category` only ever produces the six closed-enum labels. -/
theorem spec_category_mem (score : Int) (flag : Bool) :
    spec_category score flag ∈ categoryLabels := by
  unfold spec_category categoryLabels
  split_ifs <;> simp

-- ========== CLAIM THEOREMS: SCORING ==========

/-- C1: for every input record, the assigned category is determined
exactly by the final clamped score and the region flag, following the
§4.3 thresholds (region: ≥ 70 top-priority-region else region-weaker;
otherwise ≥ 70 top-priority-financial, 50–69 high, 35–49 medium,
< 35 low). -/
theorem C1_category_matches_thresholds
    (currentYear : Int) (pdate : String → Option Int) (row : Row) :
    (score_row currentYear pdate row).category
      = spec_category (score_row currentYear pdate row).score
          (country_priority_flag (row COLS_country)).1 :=
  score_row_category_eq currentYear pdate row

/-- C2: the score of every record is the clamped sum of the point-model
contributions: it always lies in [0, 100], a raw sum above 100 yields
exactly 100 and a raw sum below 0 yields exactly 0. -/
theorem C2_score_clamped (currentYear : Int) (pdate : String → Option Int) (row : Row) :
    (score_row currentYear pdate row).score
        = max 0 (min 100 (raw_score currentYear pdate row)) ∧
    0 ≤ (score_row currentYear pdate row).score ∧
    (score_row currentYear pdate row).score ≤ 100 ∧
    (100 < raw_score currentYear pdate row → (score_row currentYear pdate row).score = 100) ∧
    (raw_score currentYear pdate row < 0 → (score_row currentYear pdate row).score = 0) := by
  have h := score_row_score_eq currentYear pdate row
  refine ⟨h, ?_, ?_, fun h1 => ?_, fun h1 => ?_⟩ <;> rw [h] <;> omega

theorem C2_score_clamped_witness :
    (score_row 2025 (fun _ => Option.none) c2row).score = 100 :=
  (C2_score_clamped 2025 (fun _ => Option.none) c2row).2.2.2.1 (by decide)

/-- C3: `parse_scholarship_text` sets at most one of the three flags,
and evaluates its rules in the claim's fixed order (in particular the
institution-dependency check precedes the planning-word check). -/
theorem C3_classifier_order_and_exclusivity (v : RawValue) :
    flagCount (parse_scholarship_text v) ≤ 1 ∧
    parse_scholarship_text v = claimed_classify v := by
  constructor
  · simp only [parse_scholarship_text]
    split_ifs <;> decide
  · simp only [parse_scholarship_text, claimed_classify]
    split_ifs <;> first
      | rfl
      | (simp_all only [Bool.or_eq_true, Bool.and_eq_true]; tauto)

/-- C4: a field whose cleaned text is a negative word yields false for
every boolean heuristic reading it, and the scholarship classifier
returns all three flags false (hence the field contributes no points). -/
theorem C4_negative_word_immunity (v : RawValue)
    (h : negWord (clean_text v) = true) :
    has_degree_text v = false ∧
    has_family_support_text v = false ∧
    has_self_support_text v = false ∧
    has_private_loan_text v = false ∧
    parse_scholarship_text v = ⟨false, false, false⟩ := by
  unfold has_degree_text has_family_support_text has_self_support_text
    has_private_loan_text parse_scholarship_text
  simp [h]

theorem C4_negative_word_immunity_witness :
    has_degree_text (RawValue.str " NoNe ") = false ∧
    has_family_support_text (RawValue.str " NoNe ") = false ∧
    has_self_support_text (RawValue.str " NoNe ") = false ∧
    has_private_loan_text (RawValue.str " NoNe ") = false ∧
    parse_scholarship_text (RawValue.str " NoNe ") = ⟨false, false, false⟩ :=
  C4_negative_word_immunity (RawValue.str " NoNe ") (by decide)

/-- C5: for a bare integer string, `normalize_age` tries the birth-year
reading first (value in [1900, currentYear] returns currentYear − value)
and only otherwise the plain-age reading (value in [10, 80] returned
unchanged). -/
theorem C5_age_precedence (currentYear : Int) (pdate : String → Option Int)
    (s : String) (x : Int) (h : pyInt s = some x) :
    (1900 ≤ x ∧ x ≤ currentYear →
      normalize_age currentYear pdate (RawValue.str s) = some (currentYear - x)) ∧
    (¬ (1900 ≤ x ∧ x ≤ currentYear) → 10 ≤ x ∧ x ≤ 80 →
      normalize_age currentYear pdate (RawValue.str s) = some x) := by
  unfold normalize_age pyStr
  rw [h]
  constructor
  · intro h1
    simp [h1]
  · intro h1 h2
    simp [h1, h2]

theorem C5_age_precedence_witness :
    normalize_age 2025 (fun _ => Option.none) (RawValue.str "2001") = some 24 :=
  (C5_age_precedence 2025 (fun _ => Option.none) "2001" 2001 (by decide)).1 (by decide)

/-- C10: the degree fallback chain advances to the next alias only when
the current value is Python-falsy; in particular the non-empty negative
word "none" in the primary Degree field stops the fallback and the
record is scored as having no degree. -/
theorem C10_degree_fallback (row : Row) :
    (pyTruthy (row COLS_degree) = true → degree_text row = row COLS_degree) ∧
    (pyTruthy (row COLS_degree) = false → pyTruthy (row "Degree (2)") = true →
      degree_text row = row "Degree (2)") ∧
    (pyTruthy (row COLS_degree) = false → pyTruthy (row "Degree (2)") = false →
      degree_text row = row "Degree (3)") ∧
    (row COLS_degree = RawValue.str "none" →
      has_degree_text (degree_text row) = false) := by
  refine ⟨fun h1 => ?_, fun h1 h2 => ?_, fun h1 h2 => ?_, fun h1 => ?_⟩
  · simp [degree_text, pyOr, h1]
  · simp [degree_text, pyOr, h1, h2]
  · simp [degree_text, pyOr, h1, h2]
  · have hd : degree_text row = RawValue.str "none" := by
      unfold degree_text
      rw [h1]
      rfl
    rw [hd]
    decide

theorem C10_degree_fallback_witness :
    has_degree_text (degree_text c10row) = false :=
  (C10_degree_fallback c10row).2.2.2 (by decide)

/-- C9: scoring a record is total over missing, null, numeric and
arbitrary-string cells — `score_row` is a total function on `Row` whose
result always carries a clamped score and one of the six category
labels; every fallible sub-step (`int(...)`, `pd.to_datetime`) is
modelled as an `Option` the source catches, and an unresolved age
degrades to zero age points with the explicit "Age unknown" reason. -/
theorem C9_scoring_total (currentYear : Int) (pdate : String → Option Int) (row : Row) :
    0 ≤ (score_row currentYear pdate row).score ∧
    (score_row currentYear pdate row).score ≤ 100 ∧
    (score_row currentYear pdate row).category ∈ categoryLabels ∧
    (normalize_age currentYear pdate (row COLS_age) = Option.none →
      (score_row currentYear pdate row).computedAge = Option.none ∧
      (age_degree_points (normalize_age currentYear pdate (row COLS_age))
          (has_degree_text (degree_text row))).1 = 0 ∧
      "Age unknown (no points applied)" ∈ (score_row currentYear pdate row).reasons) := by
  have hs := score_row_score_eq currentYear pdate row
  refine ⟨by rw [hs]; omega, by rw [hs]; omega, ?_, fun h => ⟨?_, ?_, ?_⟩⟩
  · rw [score_row_category_eq]
    exact spec_category_mem _ _
  · have hca : (score_row currentYear pdate row).computedAge
        = normalize_age currentYear pdate (row COLS_age) := rfl
    rw [hca, h]
  · rw [h]
    rfl
  · simp only [score_row]
    rw [h]
    simp [age_degree_points, List.mem_append]

theorem C9_scoring_total_witness :
    "Age unknown (no points applied)"
      ∈ (score_row 2025 (fun _ => Option.none) (fun _ => RawValue.none)).reasons :=
  ((C9_scoring_total 2025 (fun _ => Option.none) (fun _ => RawValue.none)).2.2.2 rfl).2.2

-- ========== DEDUP LEMMA LAYER ==========

theorem tsLe_refl (a : Option Int) : tsLe a a = true := by
  cases a <;> simp [tsLe]

theorem tsLe_total (a b : Option Int) : tsLe a b = true ∨ tsLe b a = true := by
  cases a <;> cases b <;> simp [tsLe]
  omega

theorem tsLe_trans {a b c : Option Int}
    (h1 : tsLe a b = true) (h2 : tsLe b c = true) : tsLe a c = true := by
  cases a <;> cases b <;> cases c <;> simp [tsLe] at *
  omega

theorem keepLast_sublist {α β : Type} [DecidableEq β] (key : α → β) :
    ∀ l : List α, (keepLast key l).Sublist l
  | [] => by simp [keepLast]
  | x :: xs => by
    unfold keepLast
    split
    · exact (keepLast_sublist key xs).cons x
    · exact (keepLast_sublist key xs).cons₂ x

theorem mem_of_mem_keepLast {α β : Type} [DecidableEq β] {key : α → β}
    {l : List α} {q : α} (h : q ∈ keepLast key l) : q ∈ l :=
  (keepLast_sublist key l).subset h

theorem keepLast_pairwise {α β : Type} [DecidableEq β] (key : α → β) :
    ∀ l : List α, (keepLast key l).Pairwise (fun a b => key a ≠ key b)
  | [] => by simp [keepLast]
  | x :: xs => by
    unfold keepLast
    split
    · exact keepLast_pairwise key xs
    · refine List.Pairwise.cons (fun b hb hkey => ?_) (keepLast_pairwise key xs)
      rename_i hany
      exact hany (by
        rw [List.any_eq_true]
        exact ⟨b, mem_of_mem_keepLast hb, by simp [hkey]⟩)

theorem keepLast_covers {α β : Type} [DecidableEq β] (key : α → β) :
    ∀ l : List α, ∀ r ∈ l, ∃ q ∈ keepLast key l, key q = key r
  | [], r, hr => absurd hr (List.not_mem_nil r)
  | x :: xs, r, hr => by
    unfold keepLast
    rcases List.mem_cons.mp hr with hrx | hrxs
    · subst hrx
      split
      · rename_i hany
        rw [List.any_eq_true] at hany
        obtain ⟨y, hy, hyk⟩ := hany
        simp only [decide_eq_true_eq] at hyk
        obtain ⟨q, hq, hqk⟩ := keepLast_covers key xs y hy
        exact ⟨q, hq, by rw [hqk, hyk]⟩
      · exact ⟨r, List.mem_cons_self r _, rfl⟩
    · obtain ⟨q, hq, hqk⟩ := keepLast_covers key xs r hrxs
      split
      · exact ⟨q, hq, hqk⟩
      · exact ⟨q, List.mem_cons_of_mem x hq, hqk⟩

theorem keepLast_getLast {α β : Type} [DecidableEq β] (key : α → β) :
    ∀ l : List α, ∀ q ∈ keepLast key l,
      (l.filter (fun y => decide (key y = key q))).getLast? = some q
  | [], q, hq => absurd hq (List.not_mem_nil q)
  | x :: xs, q, hq => by
    rw [List.filter_cons]
    unfold keepLast at hq
    split at hq
    · rename_i hany
      have ih := keepLast_getLast key xs q hq
      split
      · rename_i hpx
        have hqxs : q ∈ xs := mem_of_mem_keepLast hq
        have hqf : q ∈ xs.filter (fun y => decide (key y = key q)) :=
          List.mem_filter.mpr ⟨hqxs, by simp⟩
        obtain ⟨h1, t1, hft⟩ := List.exists_cons_of_ne_nil (List.ne_nil_of_mem hqf)
        rw [hft, List.getLast?_cons_cons, ← hft, ih]
      · exact ih
    · rename_i hany
      rcases List.mem_cons.mp hq with hqx | hqxs
      · subst hqx
        have hfe : xs.filter (fun y => decide (key y = key q)) = [] := by
          rw [List.filter_eq_nil_iff]
          intro a ha
          simp only [decide_eq_true_eq]
          intro hak
          exact hany (by
            rw [List.any_eq_true]
            exact ⟨a, ha, by simp [hak]⟩)
        simp [hfe]
      · have hkxq : ¬ key x = key q := by
          intro hk
          exact hany (by
            rw [List.any_eq_true]
            exact ⟨q, mem_of_mem_keepLast hqxs, by simp [hk.symm]⟩)
        have ih := keepLast_getLast key xs q hqxs
        simp only [decide_eq_true_eq]
        rw [if_neg hkxq]
        exact ih

theorem sortRows_perm (pts : String → Option Int) (rs : List DRow) :
    (sortRows pts rs).Perm rs :=
  List.perm_insertionSort _ rs

theorem sortRows_sorted (pts : String → Option Int) (rs : List DRow) :
    List.Sorted (rowLe pts) (sortRows pts rs) := by
  letI : IsTotal DRow (rowLe pts) := ⟨fun a b => tsLe_total _ _⟩
  letI : IsTrans DRow (rowLe pts) := ⟨fun a b c h1 h2 => tsLe_trans h1 h2⟩
  exact List.sorted_insertionSort _ rs

theorem filter_key_orderedInsert (pts : String → Option Int) (k : Option Int) (x : DRow) :
    ∀ l : List DRow,
      (List.orderedInsert (rowLe pts) x l).filter (fun r => decide (rowTs pts r = k))
        = if rowTs pts x = k then
            x :: l.filter (fun r => decide (rowTs pts r = k))
          else l.filter (fun r => decide (rowTs pts r = k))
  | [] => by
    by_cases hx : rowTs pts x = k <;>
      simp [List.orderedInsert, List.filter_cons, hx]
  | y :: ys => by
    unfold List.orderedInsert
    by_cases hxy : rowLe pts x y
    · rw [if_pos hxy]
      by_cases hx : rowTs pts x = k <;>
        by_cases hy : rowTs pts y = k <;>
          simp [List.filter_cons, hx, hy]
    · rw [if_neg hxy]
      have ih := filter_key_orderedInsert pts k x ys
      by_cases hx : rowTs pts x = k
      · have hy : ¬ rowTs pts y = k := fun hy =>
          hxy (by unfold rowLe; rw [hx, hy]; exact tsLe_refl k)
        simp [List.filter_cons, hx, hy, ih]
      · by_cases hy : rowTs pts y = k <;>
          simp [List.filter_cons, hx, hy, ih]

theorem filter_key_sortRows (pts : String → Option Int) (k : Option Int) :
    ∀ rs : List DRow,
      (sortRows pts rs).filter (fun r => decide (rowTs pts r = k))
        = rs.filter (fun r => decide (rowTs pts r = k))
  | [] => rfl
  | x :: xs => by
    have ih := filter_key_sortRows pts k xs
    show (List.orderedInsert (rowLe pts) x
        (List.insertionSort (rowLe pts) xs)).filter _ = _
    rw [filter_key_orderedInsert]
    by_cases hx : rowTs pts x = k <;> simp [List.filter_cons, hx]
    · exact ih
    · exact ih

/-- C6 counterexample: two same-email records, one with a valid
timestamp and one whose timestamp is unparseable (NaT).  The claim says
NaT is the earliest sentinel, so the valid record counts as more recent
and survives; the code sorts NaT into pandas' na-last position, so the
keep-last rule keeps the NaT record instead. -/
theorem C6_counterexample :
    rowTs c6pts c6valid = some 100 ∧
    rowTs c6pts c6invalid = Option.none ∧
    dedup c6pts true [c6valid, c6invalid] = [c6invalid] ∧
    c6invalid ≠ c6valid := by decide

/-- C6 amended: when the timestamp column is present the records are
stable-sorted ascending by parsed timestamp before the keep-last rule,
but an invalid/unparseable timestamp is treated as the LATEST possible
(NaT sorts after every valid timestamp), so every record with a valid
timestamp counts as OLDER than it.  Stated as: the sort is a permutation,
sorted under `tsLe` (whose top element is `none` = NaT), stable (the
records of each fixed parsed-timestamp key keep their original relative
order), and `dedup` is exactly keep-last applied to this sorted list. -/
theorem C6_amended_nat_sorts_last (pts : String → Option Int) (rs : List DRow) :
    (sortRows pts rs).Perm rs ∧
    List.Sorted (rowLe pts) (sortRows pts rs) ∧
    (∀ k : Option Int,
      (sortRows pts rs).filter (fun r => decide (rowTs pts r = k))
        = rs.filter (fun r => decide (rowTs pts r = k))) ∧
    dedup pts true rs = dedup_after_sort (sortRows pts rs) :=
  ⟨sortRows_perm pts rs, sortRows_sorted pts rs,
    fun k => filter_key_sortRows pts k rs, rfl⟩

theorem C6_amended_nat_sorts_last_witness :
    (sortRows c6pts [c6valid, c6invalid]).Perm [c6valid, c6invalid] :=
  (C6_amended_nat_sorts_last c6pts [c6valid, c6invalid]).1

/-- C7 failing input evaluated: two blank-email records of two distinct
applicants (different name AND different birth date).  The claim (and
the code's own "keeping the most recent per applicant" / "fallback
dedupe ONLY for rows missing email" comments) says both survive, being
partitioned by the name+DOB fallback key; but the primary
`drop_duplicates(subset=[Email])` step runs over ALL rows and collapses
the two equal blank emails, so only the later record survives. -/
theorem C7_blank_emails_collapsed_by_primary_key :
    no_email c7r1.email = true ∧
    no_email c7r2.email = true ∧
    (c7r1.name, c7r1.dob) ≠ (c7r2.name, c7r2.dob) ∧
    dedup c7pts true [c7r1, c7r2] = [c7r2] := by decide

/-- C8 counterexample: two records whose emails differ only in letter
case and surrounding whitespace (equal normalized keys).  The claim says
they are recognized as the same applicant and only the most recent is
kept; the code deduplicates on the exact raw email value, so both
survive. -/
theorem C8_counterexample :
    spec_email_key c8r1.email = spec_email_key c8r2.email ∧
    c8r1.email ≠ c8r2.email ∧
    dedup c8pts true [c8r1, c8r2] = [c8r1, c8r2] := by decide

/-- C8 amended: the deduplicator's primary identity key is the EXACT
raw email value (no trimming, no case folding): the email dedup step
keeps a subsequence of the sorted records in which raw email values are
pairwise distinct, every input email value keeps exactly its LAST
occurrence in sorted order, and records whose raw emails differ — even
only by case or whitespace — are never merged by it. -/
theorem C8_amended_exact_email_key (rs : List DRow) :
    (keepLast (fun r : DRow => r.email) rs).Sublist rs ∧
    List.Pairwise (fun a b : DRow => a.email ≠ b.email)
      (keepLast (fun r : DRow => r.email) rs) ∧
    (∀ r ∈ rs, ∃ q ∈ keepLast (fun r : DRow => r.email) rs, q.email = r.email) ∧
    (∀ q ∈ keepLast (fun r : DRow => r.email) rs,
      (rs.filter (fun y => decide (y.email = q.email))).getLast? = some q) :=
  ⟨keepLast_sublist _ rs, keepLast_pairwise _ rs,
    keepLast_covers _ rs, keepLast_getLast _ rs⟩

theorem C8_amended_exact_email_key_witness :
    (keepLast (fun r : DRow => r.email) [c8r1, c8r2]).Sublist [c8r1, c8r2] :=
  (C8_amended_exact_email_key [c8r1, c8r2]).1
